import Mathlib

/-!
Verification of the process-supervision wrapper (src/wrapper.c), a modified
GNU coreutils `timeout`.  The C program is shallowly embedded: pure helpers
become Lean functions, the signal handlers become functions from supervisor
state to (state, action) pairs, and the reap loop becomes a fold over the
sequence of signal-delivery events observed inside `sigsuspend`.
-/

namespace Wrapper

/-! ### Signal numbers and constants (Linux) -/

def SIGHUP : Nat := 1
def SIGINT : Nat := 2
def SIGQUIT : Nat := 3
def SIGKILL : Nat := 9
def SIGUSR1 : Nat := 10
def SIGALRM : Nat := 14
def SIGTERM : Nat := 15
def SIGCHLD : Nat := 17

def EBADF : Nat := 9
def ENOSYS : Nat := 38

def MAX_TIMEOUT_SECS : Nat := 60

/-! ### parse_int (wrapper.c lines 231-246)

`parse_int` walks the argument string; it calls `exit(2)` when the first
character is below the character 1 (this covers the empty string, whose
first byte is the NUL terminator, and any string starting with the digit 0)
and when any character is not an ASCII digit.  Calling `exit(2)` is embedded
as `Except.error 2`.  The accumulator is kept unbounded: the C `int`
overflow on huge inputs is undefined behaviour and is never exercised by
the claims. -/

def parse_int_go : List Char → Nat → Except Nat Nat
  | [], v => .ok v
  | c :: cs, v =>
    if c.toNat < 48 ∨ 57 < c.toNat then .error 2
    else parse_int_go cs (v * 10 + (c.toNat - 48))

def parse_int (s : List Char) : Except Nat Nat :=
  match s with
  | [] => .error 2
  | c :: _ => if c.toNat < 49 then .error 2 else parse_int_go s 0

/-! ### main's validation phase (wrapper.c lines 248-265)

Everything before `fork()`: arity check, the two `parse_int` calls, the
timeout range check, and the `fcntl(fd, F_GETFD)` descriptor-property
query.  The errno produced by that query is an input of the embedding
(`0` when the descriptor is open, `EBADF` when it is not).  The result is
either an exit status (no child forked, nothing written) or the validated
pair (fd, timeout). -/

def mainValidate (argv : List String) (fcntlErrno : Nat) : Except Nat (Nat × Nat) :=
  match argv with
  | [_, a1, a2] =>
    match parse_int a1.data with
    | .error e => .error e
    | .ok fd =>
      match parse_int a2.data with
      | .error e => .error e
      | .ok timeout_secs =>
        if timeout_secs < 1 ∨ MAX_TIMEOUT_SECS < timeout_secs then .error 2
        else if fcntlErrno ≠ 0 then .error fcntlErrno
        else .ok (fd, timeout_secs)
  | _ => .error 2

/-! ### Wait-status classification (wrapper.c lines 336-353)

The glibc wait-status macros, bit-accurately on the raw 16-bit status
word: WIFEXITED(s) is (s and 0x7f) == 0, WEXITSTATUS(s) is (s >> 8) and
0xff, WIFSIGNALED(s) holds when (s and 0x7f) lies in [1,126],
WTERMSIG(s) is s and 0x7f, WCOREDUMP(s) is s and 0x80. -/

def wifexited (s : Nat) : Bool := s % 128 = 0

def wexitstatus (s : Nat) : Nat := s / 256 % 256

def wifsignaled (s : Nat) : Bool := decide (1 ≤ s % 128) && decide (s % 128 ≤ 126)

def wtermsig (s : Nat) : Nat := s % 128

def wcoredump (s : Nat) : Bool := s / 128 % 2 = 1

inductive StatusType where
  | exited
  | killed
  | core_dump
  | unknown
deriving DecidableEq, Repr

def StatusType.str : StatusType → String
  | .exited => "exited"
  | .killed => "killed"
  | .core_dump => "core_dump"
  | .unknown => "unknown"

/-- The classification block of `main` after the reap loop: `wait_result`
is the final return value of `waitpid`; `status` is the raw wait status.
`status_type` starts as the string unknown and is overwritten only in the
exited/signaled branches; on `wait_result < 0` or an unrecognized status
shape `status` is set to -1. -/
def classify (wait_result : Int) (status : Nat) : StatusType × Int :=
  if wait_result < 0 then (.unknown, -1)
  else if wifexited status then (.exited, (wexitstatus status : Int))
  else if wifsignaled status then
    (if wcoredump status then .core_dump else .killed, (wtermsig status : Int))
  else (.unknown, -1)

/-! ### Supervisor state and signal handlers (wrapper.c lines 87-92, 140-154, 182-188)

The process-wide mutable scalars read and written by the handlers:
`timed_out`, `term_signal` (statically SIGKILL, never reassigned in this
build) and `monitored_pid` (0 until `fork` returns in the parent).  A
handler invocation is a function from this state to the new state plus
the externally visible action it performs. -/

structure SupState where
  timed_out : Bool
  term_signal : Nat
  monitored_pid : Nat
deriving DecidableEq, Repr

inductive HandlerAction where
  | sendSig (pid : Nat) (sig : Nat)
  | exitNow (code : Nat)
deriving DecidableEq, Repr

/-- The `cleanup` signal handler (wrapper.c lines 140-154): on SIGALRM it
records the timeout and substitutes the configured termination signal;
then it signals the monitored pid when one is recorded, else `_exit(128+sig)`. -/
def cleanup (sig : Nat) (s : SupState) : SupState × HandlerAction :=
  let sig' := if sig = SIGALRM then s.term_signal else sig
  let s' := if sig = SIGALRM then { s with timed_out := true } else s
  if s'.monitored_pid ≠ 0 then
    (s', .sendSig s'.monitored_pid sig')
  else
    (s', .exitNow (128 + sig'))

/-- The `handle_usr1` handler (wrapper.c lines 182-188): reads the integer
payload attached to the SIGUSR1 delivery and forwards it verbatim with
`kill(monitored_pid, payload)`; it touches no other state. -/
def handle_usr1 (payload : Nat) (s : SupState) : SupState × HandlerAction :=
  (s, .sendSig s.monitored_pid payload)

/-- The signals given the `cleanup` disposition by `install_cleanup`
(wrapper.c lines 190-205), in registration order. -/
def install_cleanup_signals (sigterm : Nat) : List Nat :=
  [SIGALRM, SIGINT, SIGQUIT, SIGHUP, SIGTERM, sigterm]

/-- The set built by `block_cleanup_and_chld` (wrapper.c lines 212-229)
with successive `sigaddset` calls and blocked with SIG_BLOCK around the
reap loop. -/
def block_cleanup_and_chld_set (sigterm : Nat) : List Nat :=
  [SIGALRM, SIGINT, SIGQUIT, SIGHUP, SIGTERM, sigterm, SIGCHLD]

/-! ### The reap loop (wrapper.c lines 327-331)

`while ((wait_result = waitpid(monitored_pid, &status, WNOHANG)) == 0)
     sigsuspend(&cleanup_set);`

All cleanup signals and SIGCHLD are blocked outside `sigsuspend`, so a
delivery is observed exactly at a `sigsuspend` call.  The loop is embedded
as a fold over the sequence of deliveries: `Event.sig n` is a delivery of
signal `n` handled by `cleanup`, and `Event.chld raw` is the SIGCHLD
delivery that follows the child terminating with raw wait status `raw`
(thereafter the non-blocking `waitpid` returns `raw` and the loop exits).
Handlers never reap: the only exit from the loop is `waitpid` itself. -/

inductive Event where
  | sig (n : Nat)
  | chld (raw : Nat)
deriving DecidableEq, Repr

structure LoopResult where
  sup : SupState
  sent : List (Nat × Nat)
  reaped : Option Nat
  exitedEarly : Option Nat
deriving DecidableEq, Repr

def runLoop (s : SupState) : List Event → LoopResult
  | [] => { sup := s, sent := [], reaped := none, exitedEarly := none }
  | .chld raw :: _ => { sup := s, sent := [], reaped := some raw, exitedEarly := none }
  | .sig n :: rest =>
    match cleanup n s with
    | (s', .sendSig p g) =>
      let r := runLoop s' rest
      { r with sent := (p, g) :: r.sent }
    | (s', .exitNow c) =>
      { sup := s', sent := [], reaped := none, exitedEarly := some c }

/-! ### settimeout (wrapper.c lines 95-114)

`timer_create(CLOCK_REALTIME)` then `timer_settime` with a one-shot
expiry of `timeout_secs` seconds; on `timer_settime` failure a warning is
printed whenever `warn` holds and the timer is deleted; on `timer_create`
failure a warning is printed when `warn` holds and errno is not ENOSYS.
Both failure paths fall through to `alarm(timeout_secs)`.  The outcomes
of the two fallible calls are inputs of the embedding (`none` = success,
`some e` = failure with errno `e`). -/

inductive Armed where
  | hires (secs : Nat)
  | alarmCoarse (secs : Nat)
deriving DecidableEq, Repr

structure TimerEnv where
  createFails : Option Nat
  settimeFails : Option Nat
deriving DecidableEq, Repr

structure STResult where
  armed : Armed
  warnings : List String
deriving DecidableEq, Repr

def settimeout (warn : Bool) (timeout_secs : Nat) (env : TimerEnv) : STResult :=
  match env.createFails with
  | none =>
    match env.settimeFails with
    | none => { armed := .hires timeout_secs, warnings := [] }
    | some _ =>
      { armed := .alarmCoarse timeout_secs
        warnings := if warn then ["warning: timer_settime"] else [] }
  | some e =>
    { armed := .alarmCoarse timeout_secs
      warnings := if warn && e ≠ ENOSYS then ["warning: timer_create"] else [] }

/-! ### The child branch (wrapper.c lines 294-302)

After `fork` returns 0 the child restores SIGTTIN/SIGTTOU, closes the
output descriptor and calls `execlp("/ATO/runner", ...)`.  `execlp` only
returns on failure, in which case the child prints the error and returns
1 from `main`, i.e. exits with status 1. -/

def childBranch (execFails : Bool) : Option Nat :=
  if execFails then some 1 else none

/-- The raw wait status the parent observes for a child that exited
normally with code `c` (0..255): code in bits 8..15, low 7 bits zero. -/
def rawExited (c : Nat) : Nat := 256 * c

/-- The raw wait status for a child terminated by signal `sig`
(1..126), with the core-dump bit 0x80 set when a core was produced. -/
def rawSignaled (sig : Nat) (core : Bool) : Nat := sig + (if core then 128 else 0)

/-- The exit statuses reserved for exec-side failure by the program's own
header comment (wrapper.c lines 23-27): EXIT_CANNOT_INVOKE 126 and
EXIT_ENOENT 127. -/
def documentedExecFailStatuses : List Nat := [126, 127]

/-! ### The output record (wrapper.c lines 74-85, 283-288, 333-334, 355-375)

The record is emitted by fifteen consecutive `dprintf` calls on the
caller-supplied descriptor: an opening brace, thirteen fields, and a
closing brace followed by a newline.  `%lld`/`%ld`/`%d` decimal rendering
is modelled by `renderInt`; the TIMEVAL and TIMESPEC macros convert
`struct timeval`/`struct timespec` to nanoseconds. -/

def digitChar : Nat → Char
  | 0 => '0'
  | 1 => '1'
  | 2 => '2'
  | 3 => '3'
  | 4 => '4'
  | 5 => '5'
  | 6 => '6'
  | 7 => '7'
  | 8 => '8'
  | 9 => '9'
  | _ => '*'

/-- Decimal digits of `n`, most significant first.  The first argument is
recursion fuel; `n + 1` units always suffice since `n / 10 < n`. -/
def natCharsFuel : Nat → Nat → List Char
  | 0, _ => []
  | fuel + 1, n =>
    if n < 10 then [digitChar n]
    else natCharsFuel fuel (n / 10) ++ [digitChar (n % 10)]

def natChars (n : Nat) : List Char := natCharsFuel (n + 1) n

def renderInt (i : Int) : String :=
  if i < 0 then ⟨'-' :: natChars i.natAbs⟩ else ⟨natChars i.natAbs⟩

structure Rusage where
  ru_utime_sec : Int
  ru_utime_usec : Int
  ru_stime_sec : Int
  ru_stime_usec : Int
  ru_maxrss : Int
  ru_majflt : Int
  ru_minflt : Int
  ru_inblock : Int
  ru_oublock : Int
  ru_nvcsw : Int
  ru_nivcsw : Int
deriving DecidableEq, Repr

def TIMEVAL (sec usec : Int) : Int := sec * 1000000000 + usec * 1000

def TIMESPEC (sec nsec : Int) : Int := sec * 1000000000 + nsec

structure Timespec where
  tv_sec : Int
  tv_nsec : Int
deriving DecidableEq, Repr

/-- One string per DPRINTF call of the reporting block, in program order. -/
def recordPieces (timed_out : Bool) (status_type : StatusType) (status_value : Int)
    (ru : Rusage) (start_time end_time : Timespec) : List String :=
  ["\x7b",
   "\"timed_out\":" ++ (if timed_out then "true" else "false") ++ ",",
   "\"status_type\":\"" ++ status_type.str ++ "\",",
   "\"status_value\":" ++ renderInt status_value ++ ",",
   "\"user\":" ++ renderInt (TIMEVAL ru.ru_utime_sec ru.ru_utime_usec) ++ ",",
   "\"kernel\":" ++ renderInt (TIMEVAL ru.ru_stime_sec ru.ru_stime_usec) ++ ",",
   "\"real\":" ++ renderInt (TIMESPEC end_time.tv_sec end_time.tv_nsec -
                             TIMESPEC start_time.tv_sec start_time.tv_nsec) ++ ",",
   "\"max_mem\":" ++ renderInt ru.ru_maxrss ++ ",",
   "\"major_page_faults\":" ++ renderInt ru.ru_majflt ++ ",",
   "\"minor_page_faults\":" ++ renderInt ru.ru_minflt ++ ",",
   "\"input_ops\":" ++ renderInt ru.ru_inblock ++ ",",
   "\"output_ops\":" ++ renderInt ru.ru_oublock ++ ",",
   "\"waits\":" ++ renderInt ru.ru_nvcsw ++ ",",
   "\"preemptions\":" ++ renderInt ru.ru_nivcsw,
   "\x7d\n"]

def renderRecord (timed_out : Bool) (status_type : StatusType) (status_value : Int)
    (ru : Rusage) (start_time end_time : Timespec) : String :=
  String.join (recordPieces timed_out status_type status_value ru start_time end_time)

/-- The thirteen field names of the record, in emission order. -/
def recordFieldNames : List String :=
  ["timed_out", "status_type", "status_value", "user", "kernel", "real",
   "max_mem", "major_page_faults", "minor_page_faults", "input_ops",
   "output_ops", "waits", "preemptions"]

/-- The record as an association list field-name/rendered-value, for
stating which fields appear.  Joining these with commas and wrapping in
braces reproduces `renderRecord` exactly. -/
def recordFields (timed_out : Bool) (status_type : StatusType) (status_value : Int)
    (ru : Rusage) (start_time end_time : Timespec) : List (String × String) :=
  [("timed_out", if timed_out then "true" else "false"),
   ("status_type", "\"" ++ status_type.str ++ "\""),
   ("status_value", renderInt status_value),
   ("user", renderInt (TIMEVAL ru.ru_utime_sec ru.ru_utime_usec)),
   ("kernel", renderInt (TIMEVAL ru.ru_stime_sec ru.ru_stime_usec)),
   ("real", renderInt (TIMESPEC end_time.tv_sec end_time.tv_nsec -
                       TIMESPEC start_time.tv_sec start_time.tv_nsec)),
   ("max_mem", renderInt ru.ru_maxrss),
   ("major_page_faults", renderInt ru.ru_majflt),
   ("minor_page_faults", renderInt ru.ru_minflt),
   ("input_ops", renderInt ru.ru_inblock),
   ("output_ops", renderInt ru.ru_oublock),
   ("waits", renderInt ru.ru_nvcsw),
   ("preemptions", renderInt ru.ru_nivcsw)]

/-- Generic comma-join of an association list of fields, with each field
rendered as a quoted name, a colon and the value text.  Used to state
that the record consists of exactly its thirteen fields. -/
def joinFields : List (String × String) → String
  | [] => ""
  | [p] => "\"" ++ p.1 ++ "\":" ++ p.2
  | p :: rest => "\"" ++ p.1 ++ "\":" ++ p.2 ++ "," ++ joinFields rest

/-- The per-field texts of the same join: every field but the last is
followed by a comma, matching the dprintf format strings. -/
def piecesOfFields : List (String × String) → List String
  | [] => []
  | [p] => ["\"" ++ p.1 ++ "\":" ++ p.2]
  | p :: rest => ("\"" ++ p.1 ++ "\":" ++ p.2 ++ ",") :: piecesOfFields rest

/-- The reporting phase of `main` after the loop: classify the wait
outcome, then build the single record line.  It is total: an anomalous
wait outcome still yields a record. -/
def report (wait_result : Int) (status : Nat) (timed_out : Bool)
    (ru : Rusage) (start_time end_time : Timespec) : String :=
  let c := classify wait_result status
  renderRecord timed_out c.1 c.2 ru start_time end_time

/-! ### Statement order on the parent side of main (wrapper.c lines 283-331)

The sequence of operations `main` performs around the fork, used to state
ordering facts (the SIGUSR1 handler is installed only after
`monitored_pid` has been recorded by the `fork` return). -/

inductive ParentOp where
  | validateArgs
  | installCleanupHandlers
  | installSigchldHandler
  | recordStartTime
  | forkSetsMonitoredPid
  | unblockSigalrm
  | installUsr1Handler
  | armDeadline
  | blockCleanupAndChld
  | reapLoop
deriving DecidableEq, Repr

def mainParentOps : List ParentOp :=
  [.validateArgs, .installCleanupHandlers, .installSigchldHandler, .recordStartTime,
   .forkSetsMonitoredPid, .unblockSigalrm, .installUsr1Handler,
   .armDeadline, .blockCleanupAndChld, .reapLoop]

/-! ### The whole of main as one function (wrapper.c lines 248-378)

Inputs the embedding takes from the environment: the errno left by the
`fcntl` descriptor query, the pid returned by `fork` in the parent, the
outcomes of the timer syscalls, the sequence of signal deliveries
observed by the reap loop, the rusage aggregate, and the two monotonic
timestamps.  `getrusage` and the `dprintf` calls are modelled as
succeeding (their failure paths cut the run short with status 1 and are
exercised by no claim). -/

structure PostForkEnv where
  pid : Nat
  timerEnv : TimerEnv
  events : List Event
  ru : Rusage
  start_time : Timespec
  end_time : Timespec

structure MainResult where
  forked : Bool
  sent : List (Nat × Nat)
  warnings : List String
  output : String
  exit : Option Nat
deriving DecidableEq, Repr

def mainRun (argv : List String) (fcntlErrno : Nat) (env : PostForkEnv) : MainResult :=
  match mainValidate argv fcntlErrno with
  | .error e => { forked := false, sent := [], warnings := [], output := "", exit := some e }
  | .ok (_, timeout_secs) =>
    let st := settimeout true timeout_secs env.timerEnv
    let r := runLoop { timed_out := false, term_signal := SIGKILL, monitored_pid := env.pid }
               env.events
    match r.reaped with
    | some raw =>
      { forked := true, sent := r.sent, warnings := st.warnings,
        output := report (env.pid : Int) raw r.sup.timed_out env.ru env.start_time env.end_time,
        exit := some 0 }
    | none =>
      match r.exitedEarly with
      | some c =>
        { forked := true, sent := r.sent, warnings := st.warnings, output := "", exit := some c }
      | none =>
        { forked := true, sent := r.sent, warnings := st.warnings, output := "", exit := none }

/-- The acceptance condition of `parse_int` in the words of claim C10:
a non-empty string of ASCII digits whose first character is at least the
digit 1.  This is a spec-side characterization, compared against the
source translation `parse_int` in the theorems below. -/
def specAcceptsNumeral (s : List Char) : Bool :=
  match s with
  | [] => false
  | c :: _ =>
    decide (49 ≤ c.toNat) && s.all (fun d => decide (48 ≤ d.toNat) && decide (d.toNat ≤ 57))

/-! ## Helper lemmas -/

theorem strAppend_assoc (a b c : String) : a ++ b ++ c = a ++ (b ++ c) :=
  String.ext (by simp [String.data_append])

theorem strAppend_empty (a : String) : a ++ "" = a :=
  String.ext (by simp [String.data_append])

theorem strEmpty_append (a : String) : "" ++ a = a :=
  String.ext (by simp [String.data_append])

theorem strFoldl_append_shift (l : List String) :
    ∀ x y : String, List.foldl (fun r s => r ++ s) (x ++ y) l =
      x ++ List.foldl (fun r s => r ++ s) y l := by
  induction l with
  | nil => intro x y; rfl
  | cons c t ih =>
    intro x y
    show List.foldl _ (x ++ y ++ c) t = _
    rw [strAppend_assoc, ih]
    rfl

theorem strJoin_cons (a : String) (l : List String) :
    String.join (a :: l) = a ++ String.join l := by
  show List.foldl _ ("" ++ a) l = _
  rw [strEmpty_append]
  calc List.foldl (fun r s => r ++ s) a l
      = List.foldl (fun r s => r ++ s) (a ++ "") l := by rw [strAppend_empty]
    _ = a ++ List.foldl (fun r s => r ++ s) "" l := strFoldl_append_shift l a ""

theorem strJoin_nil : String.join ([] : List String) = "" := rfl

theorem join_piecesOfFields (tail : String) :
    ∀ l : List (String × String),
      String.join (piecesOfFields l ++ [tail]) = joinFields l ++ tail := by
  intro l
  induction l with
  | nil =>
    show String.join [tail] = "" ++ tail
    rw [strJoin_cons, strJoin_nil, strAppend_empty, strEmpty_append]
  | cons p rest ih =>
    cases rest with
    | nil =>
      show String.join [_, tail] = _
      rw [strJoin_cons, strJoin_cons, strJoin_nil, strAppend_empty]
      rfl
    | cons q rest' =>
      show String.join ((_ ++ ",") :: (piecesOfFields (q :: rest') ++ [tail])) = _
      rw [strJoin_cons, ih]
      show _ = "\"" ++ p.1 ++ "\":" ++ p.2 ++ "," ++ joinFields (q :: rest') ++ tail
      simp only [strAppend_assoc]

theorem digitChar_ne_newline (n : Nat) : digitChar n ≠ '\n' := by
  unfold digitChar
  split <;> decide

theorem natCharsFuel_ne_newline :
    ∀ (fuel n : Nat), ∀ c ∈ natCharsFuel fuel n, c ≠ '\n' := by
  intro fuel
  induction fuel with
  | zero => intro n c hc; simp [natCharsFuel] at hc
  | succ f ih =>
    intro n c hc
    rw [natCharsFuel] at hc
    by_cases h : n < 10
    · simp only [if_pos h, List.mem_singleton] at hc
      subst hc
      exact digitChar_ne_newline n
    · simp only [if_neg h, List.mem_append, List.mem_singleton] at hc
      rcases hc with hc | hc
      · exact ih _ _ hc
      · subst hc
        exact digitChar_ne_newline _

theorem renderInt_ne_newline (i : Int) : '\n' ∉ (renderInt i).data := by
  unfold renderInt
  split
  · show '\n' ∉ '-' :: natChars i.natAbs
    intro h
    rcases List.mem_cons.mp h with h | h
    · exact absurd h.symm (by decide)
    · exact natCharsFuel_ne_newline _ _ _ h rfl
  · show '\n' ∉ natChars i.natAbs
    intro h
    exact natCharsFuel_ne_newline _ _ _ h rfl

theorem joinFields_no_newline :
    ∀ l : List (String × String),
      (∀ p ∈ l, '\n' ∉ p.1.data ∧ '\n' ∉ p.2.data) → '\n' ∉ (joinFields l).data := by
  intro l
  induction l with
  | nil => intro _; show '\n' ∉ ("" : String).data; decide
  | cons p rest ih =>
    intro hl
    cases rest with
    | nil =>
      show '\n' ∉ ("\"" ++ p.1 ++ "\":" ++ p.2).data
      simp only [String.data_append, List.mem_append]
      rintro (((h | h) | h) | h)
      · exact absurd h (by decide)
      · exact (hl p (by simp)).1 h
      · exact absurd h (by decide)
      · exact (hl p (by simp)).2 h
    | cons q rest' =>
      show '\n' ∉ ("\"" ++ p.1 ++ "\":" ++ p.2 ++ "," ++ joinFields (q :: rest')).data
      simp only [String.data_append, List.mem_append]
      rintro (((((h | h) | h) | h) | h) | h)
      · exact absurd h (by decide)
      · exact (hl p (by simp)).1 h
      · exact absurd h (by decide)
      · exact (hl p (by simp)).2 h
      · exact absurd h (by decide)
      · exact ih (fun r hr => hl r (List.mem_cons_of_mem p hr)) h

/-! ## Claim theorems -/

set_option maxRecDepth 16000 in
/-- C5: the output record is written as a single newline-terminated line
containing exactly the thirteen fields timed_out, status_type,
status_value, user, kernel, real, max_mem, major_page_faults,
minor_page_faults, input_ops, output_ops, waits, preemptions; user and
kernel are the child rusage CPU times in integer nanoseconds, and real is
the monotonic end timestamp minus the monotonic start timestamp in
nanoseconds.  The last conjunct checks the rendering byte-for-byte on a
concrete input. -/
theorem output_record_shape (timed_out : Bool) (st : StatusType) (sv : Int)
    (ru : Rusage) (t0 t1 : Timespec) :
    renderRecord timed_out st sv ru t0 t1 =
      "\x7b" ++ joinFields (recordFields timed_out st sv ru t0 t1) ++ "\x7d\n" ∧
    (recordFields timed_out st sv ru t0 t1).map Prod.fst = recordFieldNames ∧
    recordFieldNames.length = 13 ∧
    (recordFields timed_out st sv ru t0 t1).get? 3 =
      some ("user", renderInt (ru.ru_utime_sec * 1000000000 + ru.ru_utime_usec * 1000)) ∧
    (recordFields timed_out st sv ru t0 t1).get? 4 =
      some ("kernel", renderInt (ru.ru_stime_sec * 1000000000 + ru.ru_stime_usec * 1000)) ∧
    (recordFields timed_out st sv ru t0 t1).get? 5 =
      some ("real", renderInt ((t1.tv_sec * 1000000000 + t1.tv_nsec) -
                               (t0.tv_sec * 1000000000 + t0.tv_nsec))) ∧
    (∃ line : String, renderRecord timed_out st sv ru t0 t1 = line ++ "\n" ∧
        '\n' ∉ line.data) ∧
    renderRecord false .exited 0 ⟨1, 500, 2, 600, 3, 4, 5, 6, 7, 8, 9⟩ ⟨10, 11⟩ ⟨12, 13⟩ =
      "\x7b\"timed_out\":false,\"status_type\":\"exited\",\"status_value\":0,\"user\":1000500000,\"kernel\":2000600000,\"real\":2000000002,\"max_mem\":3,\"major_page_faults\":4,\"minor_page_faults\":5,\"input_ops\":6,\"output_ops\":7,\"waits\":8,\"preemptions\":9\x7d\n" := by
  have hst : "\"status_type\":\"" ++ st.str ++ "\"," =
      "\"" ++ "status_type" ++ "\":" ++ ("\"" ++ st.str ++ "\"") ++ "," :=
    String.ext (by simp [String.data_append])
  have hp : recordPieces timed_out st sv ru t0 t1 =
      "\x7b" :: (piecesOfFields (recordFields timed_out st sv ru t0 t1) ++ ["\x7d\n"]) := by
    unfold recordPieces
    rw [hst]
    rfl
  have hjoin : renderRecord timed_out st sv ru t0 t1 =
      "\x7b" ++ joinFields (recordFields timed_out st sv ru t0 t1) ++ "\x7d\n" := by
    show String.join (recordPieces timed_out st sv ru t0 t1) = _
    rw [hp, strJoin_cons, join_piecesOfFields, strAppend_assoc]
  have hfields : ∀ p ∈ recordFields timed_out st sv ru t0 t1,
      '\n' ∉ p.1.data ∧ '\n' ∉ p.2.data := by
    intro p hmem
    simp only [recordFields, List.mem_cons, List.not_mem_nil, or_false] at hmem
    rcases hmem with rfl | rfl | rfl | rfl | rfl | rfl | rfl | rfl | rfl | rfl | rfl | rfl | rfl
    · refine ⟨(by decide : '\n' ∉ "timed_out".data), ?_⟩
      show '\n' ∉ (if timed_out then "true" else "false").data
      cases timed_out <;> decide
    · refine ⟨(by decide : '\n' ∉ "status_type".data), ?_⟩
      show '\n' ∉ ("\"" ++ st.str ++ "\"").data
      simp only [String.data_append, List.mem_append]
      rintro ((h | h) | h)
      · exact absurd h (by decide)
      · cases st <;> exact absurd h (by decide)
      · exact absurd h (by decide)
    · exact ⟨(by decide : '\n' ∉ "status_value".data), renderInt_ne_newline _⟩
    · exact ⟨(by decide : '\n' ∉ "user".data), renderInt_ne_newline _⟩
    · exact ⟨(by decide : '\n' ∉ "kernel".data), renderInt_ne_newline _⟩
    · exact ⟨(by decide : '\n' ∉ "real".data), renderInt_ne_newline _⟩
    · exact ⟨(by decide : '\n' ∉ "max_mem".data), renderInt_ne_newline _⟩
    · exact ⟨(by decide : '\n' ∉ "major_page_faults".data), renderInt_ne_newline _⟩
    · exact ⟨(by decide : '\n' ∉ "minor_page_faults".data), renderInt_ne_newline _⟩
    · exact ⟨(by decide : '\n' ∉ "input_ops".data), renderInt_ne_newline _⟩
    · exact ⟨(by decide : '\n' ∉ "output_ops".data), renderInt_ne_newline _⟩
    · exact ⟨(by decide : '\n' ∉ "waits".data), renderInt_ne_newline _⟩
    · exact ⟨(by decide : '\n' ∉ "preemptions".data), renderInt_ne_newline _⟩
  refine ⟨hjoin, rfl, rfl, rfl, rfl, rfl, ?_, rfl⟩
  refine ⟨"\x7b" ++ joinFields (recordFields timed_out st sv ru t0 t1) ++ "\x7d", ?_, ?_⟩
  · have h2 : ("\x7d" : String) ++ "\n" = "\x7d\n" := rfl
    rw [hjoin, ← h2]
    simp only [strAppend_assoc]
  · simp only [String.data_append, List.mem_append]
    rintro ((h | h) | h)
    · exact absurd h (by decide)
    · exact joinFields_no_newline _ hfields h
    · exact absurd h (by decide)

/-- C7 (code bug): when `execlp` fails the child returns 1 from `main`,
so the child exits with status 1.  Status 1 is an ordinary child exit
code — the parent classifies it exactly like a program that really exited
with code 1 — and it is not one of the reserved exec-failure statuses
(126, 127) documented in the program's own header comment, so the caller
cannot distinguish "child never ran" from a real child exit. -/
theorem exec_failure_status_one_not_reserved :
    childBranch true = some 1 ∧
    1 ∉ documentedExecFailStatuses ∧
    classify 1 (rawExited 1) = (.exited, 1) :=
  ⟨rfl, by decide, by decide⟩

/-- C8: the SIGUSR1 handler forwards the attached integer payload
verbatim as a signal number to the monitored pid, leaving the supervisor
state (including the timeout/alarm flags) unchanged, for every state; and
in `main`'s parent-side statement order the handler is installed strictly
after the fork return has recorded `monitored_pid`. -/
theorem usr1_payload_forwarded_verbatim :
    (∀ (payload : Nat) (s : SupState),
      handle_usr1 payload s = (s, .sendSig s.monitored_pid payload)) ∧
    List.indexOf ParentOp.forkSetsMonitoredPid mainParentOps <
      List.indexOf ParentOp.installUsr1Handler mainParentOps :=
  ⟨fun _ _ => rfl, by decide⟩

/-- C9 counterexample: when the high-resolution timer was created but
arming it (`timer_settime`) fails with ENOSYS — the "unsupported" errno —
the code still prints a warning, refuting the claim that a warning is
emitted only when the failure reason is other than "unsupported". -/
theorem settime_failure_warns_despite_unsupported :
    (settimeout true 60 { createFails := none, settimeFails := some ENOSYS }).warnings ≠ [] := by
  decide

/-- C9 (amended): arming the deadline never aborts the run — whenever
creating or arming the high-resolution timer fails, `settimeout` falls
back to the coarse alarm armed with the same number of seconds and
returns normally; the warning suppression for the "unsupported" errno
(ENOSYS) applies only to `timer_create` failures, while a failure of
`timer_settime` warns whenever warnings are enabled. -/
theorem settimeout_fallback_contract (warn : Bool) (t : Nat) (env : TimerEnv) :
    (env.createFails = none ∧ env.settimeFails = none →
      (settimeout warn t env).armed = .hires t) ∧
    (env.createFails ≠ none ∨ env.settimeFails ≠ none →
      (settimeout warn t env).armed = .alarmCoarse t) ∧
    ((settimeout warn t env).warnings ≠ [] ↔
      warn = true ∧
      ((env.createFails = none ∧ env.settimeFails ≠ none) ∨
       (∃ e, env.createFails = some e ∧ e ≠ ENOSYS))) := by
  obtain ⟨cf, sf⟩ := env
  cases cf with
  | none =>
    cases sf with
    | none => cases warn <;> simp [settimeout]
    | some e => cases warn <;> simp [settimeout]
  | some e =>
    cases warn with
    | false => simp [settimeout]
    | true =>
      by_cases he : e = ENOSYS
      · subst he; simp [settimeout]
      · simp [settimeout, he]

/-- C9 witness: a concrete `timer_create` failure with a non-ENOSYS errno
falls back to the alarm and emits the warning. -/
theorem settimeout_fallback_contract_witness :
    (settimeout true 5 { createFails := some 1, settimeFails := none }).armed =
      .alarmCoarse 5 ∧
    ((settimeout true 5 { createFails := some 1, settimeFails := none }).warnings ≠ [] ↔
      True) := by
  have h := settimeout_fallback_contract true 5 { createFails := some 1, settimeFails := none }
  refine ⟨h.2.1 (by decide), ?_⟩
  rw [h.2.2]
  simp [ENOSYS]

/-- C4: every invocation of the `cleanup` handler for a signal registered
by `install_cleanup` (SIGALRM, SIGINT, SIGQUIT, SIGHUP, SIGTERM and the
configured termination signal) resolves a SIGALRM delivery by recording
`timed_out` and substituting the configured termination signal; it then
sends the resolved signal to the monitored pid when one is recorded, and
otherwise exits the current process with status 128 plus the resolved
signal number. -/
theorem cleanup_handler_contract (sigterm sig : Nat) (s : SupState)
    (hmem : sig ∈ install_cleanup_signals sigterm) :
    (cleanup sig s).1.term_signal = s.term_signal ∧
    (cleanup sig s).1.monitored_pid = s.monitored_pid ∧
    (sig = SIGALRM → (cleanup sig s).1.timed_out = true) ∧
    (sig ≠ SIGALRM → (cleanup sig s).1.timed_out = s.timed_out) ∧
    (s.monitored_pid ≠ 0 →
      (cleanup sig s).2 =
        .sendSig s.monitored_pid (if sig = SIGALRM then s.term_signal else sig)) ∧
    (s.monitored_pid = 0 →
      (cleanup sig s).2 =
        .exitNow (128 + (if sig = SIGALRM then s.term_signal else sig))) := by
  by_cases ha : sig = SIGALRM <;> by_cases hz : s.monitored_pid = 0 <;>
    simp [cleanup, ha, hz]

/-- C4 witness: SIGALRM with a recorded pid records the timeout and sends
the configured termination signal; SIGINT before the fork exits with 130. -/
theorem cleanup_handler_contract_witness :
    (cleanup SIGALRM { timed_out := false, term_signal := SIGKILL, monitored_pid := 77 }).1.timed_out
        = true ∧
    (cleanup SIGALRM { timed_out := false, term_signal := SIGKILL, monitored_pid := 77 }).2
        = .sendSig 77 SIGKILL ∧
    (cleanup SIGINT { timed_out := false, term_signal := SIGKILL, monitored_pid := 0 }).2
        = .exitNow 130 := by
  have h1 := cleanup_handler_contract SIGKILL SIGALRM
      { timed_out := false, term_signal := SIGKILL, monitored_pid := 77 } (by decide)
  have h2 := cleanup_handler_contract SIGKILL SIGINT
      { timed_out := false, term_signal := SIGKILL, monitored_pid := 0 } (by decide)
  refine ⟨h1.2.2.1 rfl, ?_, ?_⟩
  · exact (h1.2.2.2.2.1 (by decide)).trans (by decide)
  · exact (h2.2.2.2.2.2 rfl).trans (by decide)

/-- C2: the terminal wait outcome is classified as: normal exit gives
status_type exited with the exit code; signal termination with a core
dump gives core_dump with the signal; without a core dump, killed with
the signal; a failed wait call or an unrecognized status shape gives
unknown with value -1, and on a failed wait the reporting phase still
produces a complete record. -/
theorem wait_status_classification (wr : Int) (raw c sig : Nat)
    (timed_out : Bool) (ru : Rusage) (t0 t1 : Timespec) :
    (wr < 0 → classify wr raw = (.unknown, -1)) ∧
    (0 ≤ wr → c ≤ 255 → classify wr (rawExited c) = (.exited, (c : Int))) ∧
    (0 ≤ wr → 1 ≤ sig → sig ≤ 126 →
      classify wr (rawSignaled sig true) = (.core_dump, (sig : Int)) ∧
      classify wr (rawSignaled sig false) = (.killed, (sig : Int))) ∧
    (0 ≤ wr → wifexited raw = false → wifsignaled raw = false →
      classify wr raw = (.unknown, -1)) ∧
    (wr < 0 →
      report wr raw timed_out ru t0 t1 =
        renderRecord timed_out .unknown (-1) ru t0 t1) := by
  refine ⟨?_, ?_, ?_, ?_, ?_⟩
  · intro h; simp [classify, h]
  · intro h hc
    have hx : ¬ wr < 0 := by omega
    have he : wifexited (rawExited c) = true := by
      simp only [wifexited, rawExited, decide_eq_true_eq]
      omega
    have hv : wexitstatus (rawExited c) = c := by
      simp only [wexitstatus, rawExited]
      omega
    simp [classify, hx, he, hv]
  · intro h h1 h126
    have hx : ¬ wr < 0 := by omega
    have hrt : rawSignaled sig true = sig + 128 := rfl
    have hrf : rawSignaled sig false = sig + 0 := rfl
    constructor
    · have he : wifexited (rawSignaled sig true) = false := by
        rw [hrt]; simp only [wifexited, decide_eq_false_iff_not]; omega
      have hs : wifsignaled (rawSignaled sig true) = true := by
        rw [hrt]; simp only [wifsignaled, Bool.and_eq_true, decide_eq_true_eq]; omega
      have hcd : wcoredump (rawSignaled sig true) = true := by
        rw [hrt]; simp only [wcoredump, decide_eq_true_eq]; omega
      have ht : wtermsig (rawSignaled sig true) = sig := by
        rw [hrt]; simp only [wtermsig]; omega
      simp [classify, hx, he, hs, hcd, ht]
    · have he : wifexited (rawSignaled sig false) = false := by
        rw [hrf]; simp only [wifexited, decide_eq_false_iff_not]; omega
      have hs : wifsignaled (rawSignaled sig false) = true := by
        rw [hrf]; simp only [wifsignaled, Bool.and_eq_true, decide_eq_true_eq]; omega
      have hcd : wcoredump (rawSignaled sig false) = false := by
        rw [hrf]; simp only [wcoredump, decide_eq_false_iff_not]; omega
      have ht : wtermsig (rawSignaled sig false) = sig := by
        rw [hrf]; simp only [wtermsig]; omega
      simp [classify, hx, he, hs, hcd, ht]
  · intro h h1 h2
    have hx : ¬ wr < 0 := by omega
    simp [classify, hx, h1, h2]
  · intro h
    simp [report, classify, h]

/-- C2 witness: concrete classifications for all five branches. -/
theorem wait_status_classification_witness :
    classify (-1) 5 = (.unknown, -1) ∧
    classify 1 (rawExited 7) = (.exited, 7) ∧
    classify 1 (rawSignaled 11 true) = (.core_dump, 11) ∧
    classify 1 (rawSignaled 9 false) = (.killed, 9) ∧
    classify 1 127 = (.unknown, -1) ∧
    report (-1) 5 false ⟨0, 0, 0, 0, 0, 0, 0, 0, 0, 0, 0⟩ ⟨0, 0⟩ ⟨0, 0⟩ =
      renderRecord false .unknown (-1) ⟨0, 0, 0, 0, 0, 0, 0, 0, 0, 0, 0⟩ ⟨0, 0⟩ ⟨0, 0⟩ := by
  have h1 := wait_status_classification (-1) 5 7 11 false ⟨0, 0, 0, 0, 0, 0, 0, 0, 0, 0, 0⟩ ⟨0, 0⟩ ⟨0, 0⟩
  have h2 := wait_status_classification 1 127 7 11 false ⟨0, 0, 0, 0, 0, 0, 0, 0, 0, 0, 0⟩ ⟨0, 0⟩ ⟨0, 0⟩
  have h3 := wait_status_classification 1 0 0 9 false ⟨0, 0, 0, 0, 0, 0, 0, 0, 0, 0, 0⟩ ⟨0, 0⟩ ⟨0, 0⟩
  refine ⟨h1.1 (by decide), h2.2.1 (by decide) (by decide),
    (h2.2.2.1 (by decide) (by decide) (by decide)).1,
    (h3.2.2.1 (by decide) (by decide) (by decide)).2,
    h2.2.2.2.1 (by decide) (by decide) (by decide),
    h1.2.2.2.2 (by decide)⟩

theorem parse_int_go_total (s : List Char) (v : Nat) :
    parse_int_go s v = .error 2 ∨ ∃ w, parse_int_go s v = .ok w := by
  induction s generalizing v with
  | nil => exact .inr ⟨v, rfl⟩
  | cons c cs ih =>
    by_cases h : c.toNat < 48 ∨ 57 < c.toNat
    · left; simp [parse_int_go, h]
    · have hg : parse_int_go (c :: cs) v = parse_int_go cs (v * 10 + (c.toNat - 48)) := by
        simp [parse_int_go, h]
      rw [hg]; exact ih _

theorem parse_int_go_ok_iff (s : List Char) (v : Nat) :
    (∃ w, parse_int_go s v = .ok w) ↔
      s.all (fun d => decide (48 ≤ d.toNat) && decide (d.toNat ≤ 57)) = true := by
  induction s generalizing v with
  | nil => simp [parse_int_go]
  | cons c cs ih =>
    rw [List.all_cons]
    by_cases h : c.toNat < 48 ∨ 57 < c.toNat
    · have hg : parse_int_go (c :: cs) v = .error 2 := by simp [parse_int_go, h]
      have hd : (decide (48 ≤ c.toNat) && decide (c.toNat ≤ 57)) = false := by
        rcases h with h | h
        · have hnot : ¬ (48 ≤ c.toNat) := by omega
          simp [hnot]
        · have hnot : ¬ (c.toNat ≤ 57) := by omega
          simp [hnot]
      simp [hg, hd]
    · have hg : parse_int_go (c :: cs) v = parse_int_go cs (v * 10 + (c.toNat - 48)) := by
        simp [parse_int_go, h]
      have hd : (decide (48 ≤ c.toNat) && decide (c.toNat ≤ 57)) = true := by
        simp only [not_or, Nat.not_lt] at h
        simp only [Bool.and_eq_true, decide_eq_true_eq]
        omega
      rw [hg, hd, Bool.true_and]
      exact ih _

/-- C10: `parse_int` accepts exactly the non-empty strings of ASCII
digits whose first character is at least the digit 1; the empty string,
any string containing a non-digit, and any string beginning with the
digit 0 (including "0" itself and "05") exit immediately with status 2 —
in particular file descriptor 0 can never be passed. -/
theorem parse_int_acceptance (s : List Char) :
    ((∃ v, parse_int s = .ok v) ↔ specAcceptsNumeral s = true) ∧
    (specAcceptsNumeral s = false → parse_int s = .error 2) ∧
    parse_int "0".data = .error 2 ∧
    parse_int "05".data = .error 2 ∧
    parse_int "".data = .error 2 := by
  have hiff : (∃ v, parse_int s = .ok v) ↔ specAcceptsNumeral s = true := by
    cases s with
    | nil => simp [parse_int, specAcceptsNumeral]
    | cons c cs =>
      by_cases h49 : c.toNat < 49
      · have hs : specAcceptsNumeral (c :: cs) = false := by
          have hnot : ¬ (49 ≤ c.toNat) := by omega
          simp [specAcceptsNumeral, hnot]
        simp [parse_int, h49, hs]
      · have hs : specAcceptsNumeral (c :: cs) =
            (c :: cs).all (fun d => decide (48 ≤ d.toNat) && decide (d.toNat ≤ 57)) := by
          have h49' : 49 ≤ c.toNat := by omega
          simp [specAcceptsNumeral, h49']
        have hg : parse_int (c :: cs) = parse_int_go (c :: cs) 0 := by
          simp [parse_int, h49]
        rw [hg, hs]
        exact parse_int_go_ok_iff _ _
  have htot : parse_int s = .error 2 ∨ ∃ w, parse_int s = .ok w := by
    cases s with
    | nil => exact .inl rfl
    | cons c cs =>
      by_cases h49 : c.toNat < 49
      · left; simp [parse_int, h49]
      · have hg : parse_int (c :: cs) = parse_int_go (c :: cs) 0 := by
          simp [parse_int, h49]
        rw [hg]; exact parse_int_go_total _ _
  refine ⟨hiff, ?_, rfl, rfl, rfl⟩
  intro hspec
  rcases htot with h | h
  · exact h
  · exact absurd (hiff.mp h) (by simp [hspec])

/-- C10 witness: the leading-zero string "07" is rejected with status 2
through the acceptance characterization, and "17" is accepted. -/
theorem parse_int_acceptance_witness :
    parse_int "07".data = .error 2 ∧ (∃ v, parse_int "17".data = .ok v) :=
  ⟨(parse_int_acceptance "07".data).2.1 (by decide),
   (parse_int_acceptance "17".data).1.mpr (by decide)⟩

/-- C3: a wrong argument count, a non-numeric argument, or a timeout
outside [1,60] exits with the fixed status 2 before any child is forked
and with nothing written to the output descriptor; a descriptor that is
not open (fcntl errno EBADF) likewise exits before any fork with no
output, with the distinct status EBADF = 9 propagated from the
descriptor-property query.  Validation strictly precedes the fork in
main's statement order. -/
theorem validation_failures_exit_before_fork (argv : List String) (errno : Nat)
    (env : PostForkEnv) :
    (argv.length ≠ 3 →
      mainRun argv errno env =
        { forked := false, sent := [], warnings := [], output := "", exit := some 2 }) ∧
    (∀ p a1 a2, argv = [p, a1, a2] → parse_int a1.data = .error 2 →
      mainRun argv errno env =
        { forked := false, sent := [], warnings := [], output := "", exit := some 2 }) ∧
    (∀ p a1 a2 fd, argv = [p, a1, a2] → parse_int a1.data = .ok fd →
      parse_int a2.data = .error 2 →
      mainRun argv errno env =
        { forked := false, sent := [], warnings := [], output := "", exit := some 2 }) ∧
    (∀ p a1 a2 fd t, argv = [p, a1, a2] → parse_int a1.data = .ok fd →
      parse_int a2.data = .ok t → t < 1 ∨ 60 < t →
      mainRun argv errno env =
        { forked := false, sent := [], warnings := [], output := "", exit := some 2 }) ∧
    (∀ p a1 a2 fd t, argv = [p, a1, a2] → parse_int a1.data = .ok fd →
      parse_int a2.data = .ok t → 1 ≤ t → t ≤ 60 → errno = EBADF →
      mainRun argv errno env =
        { forked := false, sent := [], warnings := [], output := "", exit := some EBADF } ∧
      EBADF ≠ 0 ∧ EBADF ≠ 2) ∧
    List.indexOf ParentOp.validateArgs mainParentOps <
      List.indexOf ParentOp.forkSetsMonitoredPid mainParentOps := by
  refine ⟨?_, ?_, ?_, ?_, ?_, by decide⟩
  · intro hlen
    rcases argv with _ | ⟨p, _ | ⟨a, _ | ⟨b, _ | ⟨c, rest⟩⟩⟩⟩
    · rfl
    · rfl
    · rfl
    · exact absurd (by simp : ([p, a, b] : List String).length = 3) hlen
    · rfl
  · rintro p a1 a2 rfl h1
    simp [mainRun, mainValidate, h1]
  · rintro p a1 a2 fd rfl h1 h2
    simp [mainRun, mainValidate, h1, h2]
  · rintro p a1 a2 fd t rfl h1 h2 hrange
    have hr : t = 0 ∨ 60 < t := by omega
    simp [mainRun, mainValidate, h1, h2, MAX_TIMEOUT_SECS, hr]
  · rintro p a1 a2 fd t rfl h1 h2 hlo hhi herr
    subst herr
    have hr : ¬ (t = 0 ∨ 60 < t) := by omega
    refine ⟨?_, by decide, by decide⟩
    simp [mainRun, mainValidate, h1, h2, MAX_TIMEOUT_SECS, hr, EBADF]

/-- C3 witness: concrete failing invocations for each validation error
class. -/
theorem validation_failures_exit_before_fork_witness :
    mainRun ["wrapper"] 0 ⟨1, ⟨none, none⟩, [], ⟨0, 0, 0, 0, 0, 0, 0, 0, 0, 0, 0⟩, ⟨0, 0⟩, ⟨0, 0⟩⟩ =
      { forked := false, sent := [], warnings := [], output := "", exit := some 2 } ∧
    mainRun ["wrapper", "abc", "10"] 0
        ⟨1, ⟨none, none⟩, [], ⟨0, 0, 0, 0, 0, 0, 0, 0, 0, 0, 0⟩, ⟨0, 0⟩, ⟨0, 0⟩⟩ =
      { forked := false, sent := [], warnings := [], output := "", exit := some 2 } ∧
    mainRun ["wrapper", "5", "61"] 0
        ⟨1, ⟨none, none⟩, [], ⟨0, 0, 0, 0, 0, 0, 0, 0, 0, 0, 0⟩, ⟨0, 0⟩, ⟨0, 0⟩⟩ =
      { forked := false, sent := [], warnings := [], output := "", exit := some 2 } ∧
    mainRun ["wrapper", "5", "10"] 9
        ⟨1, ⟨none, none⟩, [], ⟨0, 0, 0, 0, 0, 0, 0, 0, 0, 0, 0⟩, ⟨0, 0⟩, ⟨0, 0⟩⟩ =
      { forked := false, sent := [], warnings := [], output := "", exit := some 9 } := by
  refine ⟨?_, ?_, ?_, ?_⟩
  · exact (validation_failures_exit_before_fork ["wrapper"] 0 _).1 (by decide)
  · exact (validation_failures_exit_before_fork ["wrapper", "abc", "10"] 0 _).2.1
      "wrapper" "abc" "10" rfl (by rfl)
  · exact (validation_failures_exit_before_fork ["wrapper", "5", "61"] 0 _).2.2.2.1
      "wrapper" "5" "61" 5 61 rfl (by rfl) (by rfl) (by omega)
  · exact ((validation_failures_exit_before_fork ["wrapper", "5", "10"] 9 _).2.2.2.2.1
      "wrapper" "5" "10" 5 10 rfl (by rfl) (by rfl) (by omega) (by omega) (by rfl)).1

theorem cleanup_of_pid_ne (sig : Nat) (s : SupState) (h : s.monitored_pid ≠ 0) :
    cleanup sig s =
      (if sig = SIGALRM then { s with timed_out := true } else s,
       .sendSig s.monitored_pid (if sig = SIGALRM then s.term_signal else sig)) := by
  by_cases ha : sig = SIGALRM <;> simp [cleanup, ha, h]

theorem runLoop_sig (n : Nat) (s : SupState) (es : List Event) (h : s.monitored_pid ≠ 0) :
    runLoop s (.sig n :: es) =
      { runLoop (if n = SIGALRM then { s with timed_out := true } else s) es with
        sent := (s.monitored_pid, if n = SIGALRM then s.term_signal else n) ::
          (runLoop (if n = SIGALRM then { s with timed_out := true } else s) es).sent } := by
  simp only [runLoop, cleanup_of_pid_ne n s h]

theorem runLoop_first_chld (raw : Nat) (post : List Event) :
    ∀ (pre : List Event) (s : SupState), s.monitored_pid ≠ 0 →
      (∀ r, Event.chld r ∉ pre) →
      runLoop s (pre ++ .chld raw :: post) = runLoop s (pre ++ [.chld raw]) ∧
      (runLoop s (pre ++ .chld raw :: post)).reaped = some raw ∧
      (runLoop s (pre ++ .chld raw :: post)).exitedEarly = none := by
  intro pre
  induction pre with
  | nil => intro s _ _; exact ⟨rfl, rfl, rfl⟩
  | cons e rest ih =>
    intro s hp hpre
    cases e with
    | chld r => exact absurd (List.mem_cons_self _ _) (hpre r)
    | sig n =>
      simp only [List.cons_append]
      have hpn : (if n = SIGALRM then { s with timed_out := true } else s).monitored_pid ≠ 0 := by
        by_cases ha : n = SIGALRM <;> simp [ha, hp]
      have hpre' : ∀ r, Event.chld r ∉ rest :=
        fun r hr => hpre r (List.mem_cons_of_mem _ hr)
      obtain ⟨he, h2, h3⟩ := ih (if n = SIGALRM then { s with timed_out := true } else s) hpn hpre'
      rw [runLoop_sig n s _ hp, runLoop_sig n s _ hp, he]
      refine ⟨rfl, ?_, ?_⟩
      · show (runLoop _ (rest ++ [Event.chld raw])).reaped = some raw
        rw [← he]; exact h2
      · show (runLoop _ (rest ++ [Event.chld raw])).exitedEarly = none
        rw [← he]; exact h3

/-- C6: the mask installed around the reap loop contains exactly the
cleanup-handled termination signals plus SIGCHLD; the loop reaps the
child exactly once, through the non-blocking waitpid at the first
child-termination event (handlers never reap, they only re-signal), and
nothing delivered after the child has been reaped is ever acted upon:
the loop result is unchanged by any events following the termination
event, so in particular no signal is sent to the child after its reap. -/
theorem reap_loop_discipline (sigterm : Nat) (s : SupState) (pre post : List Event)
    (raw : Nat) (hp : s.monitored_pid ≠ 0) (hpre : ∀ r, Event.chld r ∉ pre) :
    (∀ n, n ∈ block_cleanup_and_chld_set sigterm ↔
      (n ∈ install_cleanup_signals sigterm ∨ n = SIGCHLD)) ∧
    runLoop s (pre ++ .chld raw :: post) = runLoop s (pre ++ [.chld raw]) ∧
    (runLoop s (pre ++ .chld raw :: post)).reaped = some raw ∧
    (runLoop s (pre ++ .chld raw :: post)).exitedEarly = none := by
  obtain ⟨h1, h2, h3⟩ := runLoop_first_chld raw post pre s hp hpre
  refine ⟨?_, h1, h2, h3⟩
  intro n
  simp only [block_cleanup_and_chld_set, install_cleanup_signals, List.mem_cons,
    List.not_mem_nil, or_false]
  tauto

/-- C6 witness: with a SIGINT delivery before the child exits and a
SIGTERM delivery afterwards, the late event changes nothing and the reap
is the one from the termination event. -/
theorem reap_loop_discipline_witness :
    (SIGCHLD ∈ block_cleanup_and_chld_set SIGKILL) ∧
    runLoop { timed_out := false, term_signal := SIGKILL, monitored_pid := 5 }
        ([.sig SIGINT] ++ .chld 0 :: [.sig SIGTERM]) =
      runLoop { timed_out := false, term_signal := SIGKILL, monitored_pid := 5 }
        ([.sig SIGINT] ++ [.chld 0]) ∧
    (runLoop { timed_out := false, term_signal := SIGKILL, monitored_pid := 5 }
        ([.sig SIGINT] ++ .chld 0 :: [.sig SIGTERM])).reaped = some 0 := by
  have h := reap_loop_discipline SIGKILL
      { timed_out := false, term_signal := SIGKILL, monitored_pid := 5 }
      [.sig SIGINT] [.sig SIGTERM] 0 (by decide)
      (by intro r hr; simp at hr)
  exact ⟨(h.1 SIGCHLD).mpr (Or.inr rfl), h.2.1, h.2.2.1⟩

/-- C1: for every valid timeout t in [1,60] the invocation passes
validation and the deadline is armed with exactly t seconds (by the
high-resolution timer or the alarm fallback); when SIGALRM fires while
the child is still running, the handler sends the configured termination
signal (statically SIGKILL = 9) to the monitored pid, and once the child
is terminated by that signal the reap produces the record with
timed_out = true, status_type = killed and status_value = 9. -/
theorem timeout_expiry_yields_killed_record (prog fdStr tStr : String) (fd t pid : Nat)
    (env : PostForkEnv)
    (hfd : parse_int fdStr.data = .ok fd)
    (ht : parse_int tStr.data = .ok t)
    (h1 : 1 ≤ t) (h60 : t ≤ 60)
    (hpid : env.pid = pid) (hp : pid ≠ 0)
    (hev : env.events = [.sig SIGALRM, .chld (rawSignaled SIGKILL false)]) :
    mainValidate [prog, fdStr, tStr] 0 = .ok (fd, t) ∧
    ((settimeout true t env.timerEnv).armed = .hires t ∨
      (settimeout true t env.timerEnv).armed = .alarmCoarse t) ∧
    (mainRun [prog, fdStr, tStr] 0 env).forked = true ∧
    (mainRun [prog, fdStr, tStr] 0 env).sent = [(pid, SIGKILL)] ∧
    (mainRun [prog, fdStr, tStr] 0 env).output =
      renderRecord true .killed 9 env.ru env.start_time env.end_time ∧
    (mainRun [prog, fdStr, tStr] 0 env).exit = some 0 := by
  subst hpid
  have hval : mainValidate [prog, fdStr, tStr] 0 = .ok (fd, t) := by
    have hr : ¬ (t = 0 ∨ 60 < t) := by omega
    simp [mainValidate, hfd, ht, MAX_TIMEOUT_SECS, hr]
  have harm : (settimeout true t env.timerEnv).armed = .hires t ∨
      (settimeout true t env.timerEnv).armed = .alarmCoarse t := by
    obtain ⟨cf, sf⟩ := env.timerEnv
    cases cf <;> cases sf <;> simp [settimeout]
  have hloop : runLoop { timed_out := false, term_signal := SIGKILL, monitored_pid := env.pid }
      env.events =
      { sup := { timed_out := true, term_signal := SIGKILL, monitored_pid := env.pid },
        sent := [(env.pid, SIGKILL)], reaped := some (rawSignaled SIGKILL false),
        exitedEarly := none } := by
    rw [hev, runLoop_sig _ _ _ (by simpa using hp)]
    simp [runLoop, SIGALRM]
  have hcls : classify ((env.pid : Nat) : Int) (rawSignaled SIGKILL false) =
      (.killed, (9 : Int)) := by
    have hx : ¬ ((env.pid : Int) < 0) := by
      have := Int.natCast_nonneg env.pid
      omega
    have hraw : rawSignaled SIGKILL false = 9 := rfl
    rw [hraw]
    simp [classify, hx, wifexited, wifsignaled, wcoredump, wtermsig]
  refine ⟨hval, harm, ?_, ?_, ?_, ?_⟩ <;>
    simp [mainRun, hval, hloop, report, hcls]

/-- C1 witness: fd 5, timeout 1, default termination signal 9: the record
carries timed_out true, killed, 9 after the SIGALRM-driven kill. -/
theorem timeout_expiry_yields_killed_record_witness :
    mainValidate ["wrapper", "5", "1"] 0 = .ok (5, 1) ∧
    ((settimeout true 1 ⟨none, none⟩).armed = .hires 1 ∨
      (settimeout true 1 ⟨none, none⟩).armed = .alarmCoarse 1) ∧
    (mainRun ["wrapper", "5", "1"] 0
        ⟨123, ⟨none, none⟩, [.sig SIGALRM, .chld (rawSignaled SIGKILL false)],
         ⟨0, 0, 0, 0, 0, 0, 0, 0, 0, 0, 0⟩, ⟨0, 0⟩, ⟨2, 0⟩⟩).forked = true ∧
    (mainRun ["wrapper", "5", "1"] 0
        ⟨123, ⟨none, none⟩, [.sig SIGALRM, .chld (rawSignaled SIGKILL false)],
         ⟨0, 0, 0, 0, 0, 0, 0, 0, 0, 0, 0⟩, ⟨0, 0⟩, ⟨2, 0⟩⟩).sent = [(123, SIGKILL)] ∧
    (mainRun ["wrapper", "5", "1"] 0
        ⟨123, ⟨none, none⟩, [.sig SIGALRM, .chld (rawSignaled SIGKILL false)],
         ⟨0, 0, 0, 0, 0, 0, 0, 0, 0, 0, 0⟩, ⟨0, 0⟩, ⟨2, 0⟩⟩).output =
      renderRecord true .killed 9 ⟨0, 0, 0, 0, 0, 0, 0, 0, 0, 0, 0⟩ ⟨0, 0⟩ ⟨2, 0⟩ ∧
    (mainRun ["wrapper", "5", "1"] 0
        ⟨123, ⟨none, none⟩, [.sig SIGALRM, .chld (rawSignaled SIGKILL false)],
         ⟨0, 0, 0, 0, 0, 0, 0, 0, 0, 0, 0⟩, ⟨0, 0⟩, ⟨2, 0⟩⟩).exit = some 0 :=
  timeout_expiry_yields_killed_record "wrapper" "5" "1" 5 1 123
    ⟨123, ⟨none, none⟩, [.sig SIGALRM, .chld (rawSignaled SIGKILL false)],
     ⟨0, 0, 0, 0, 0, 0, 0, 0, 0, 0, 0⟩, ⟨0, 0⟩, ⟨2, 0⟩⟩
    rfl rfl (by omega) (by omega) rfl (by omega) rfl

end Wrapper
